import Mathlib

/-!
Shallow embedding of the Mode Manager of `projects/mode` (mode.h / mode.c).

Conventions of the embedding:
* C enums become Lean inductive types (`system_mode_t` as `SystemMode`,
  `health_state_t` as `HealthState`).
* The fixed `states[MODE_MODULE_COUNT]` array is a `List HealthState`;
  callers supply lists of length 6, and every helper loops over the whole
  list exactly as the C loops over the 6 entries.
* `uint8_t` bit fields holding booleans become `Bool`; bitmask bytes
  (`trigger_mask`, `flags_snapshot`) become `Nat` (their values stay below
  256 exactly as in the C).
* `uint32_t` / `uint64_t` counters and timestamps become `Nat`; the C
  counters never meaningfully wrap in the scenarios the specification
  describes, so the idealisation does not change any claim.
* C functions that mutate the manager through a pointer become functions
  returning the new manager; int status codes are kept as `Int` values with
  the exact C numeric codes.  `mode_update` returns its status, the updated
  manager and the optionally filled result, mirroring the out-parameters.
* The null-pointer guards of the C API have no counterpart: the embedding
  always has a manager value in hand.
-/

namespace ModeMgr

/-- System modes, from the `system_mode_t` enum of mode.h. -/
inductive SystemMode
  | init
  | startup
  | operational
  | degraded
  | emergency
  | test
deriving DecidableEq, Inhabited

/-- Normalized module health states, from the `health_state_t` enum of mode.h. -/
inductive HealthState
  | unknown
  | learning
  | healthy
  | degraded
  | faulty
deriving DecidableEq, Inhabited

/-- Warning flags, from the `mode_flags_t` bit field of mode.h. -/
structure ModeFlags where
  approaching_upper : Bool
  approaching_lower : Bool
  low_confidence : Bool
  queue_critical : Bool
  timing_unstable : Bool
  baseline_volatile : Bool
deriving DecidableEq, Inhabited

/-- Input to the mode manager, from `mode_input_t` of mode.h.
The `states` list carries the six per-module health values. -/
structure ModeInput where
  states : List HealthState
  flags : ModeFlags
  timestamp : Nat
deriving DecidableEq, Inhabited

/-- Permission set, from `mode_permissions_t` of mode.h. -/
structure ModePermissions where
  can_actuate : Bool
  can_calibrate : Bool
  can_log : Bool
  can_communicate : Bool
deriving DecidableEq, Inhabited

/-- One audit record, from `mode_transition_t` of mode.h.  A zeroed record
(`default`) matches the `memset` initialisation of the C history array. -/
structure ModeTransition where
  timestamp : Nat
  from_mode : SystemMode
  to_mode : SystemMode
  trigger_mask : Nat
  flags_snapshot : Nat
deriving DecidableEq, Inhabited

/-- Configuration, from `mode_config_t` of mode.h. -/
structure ModeConfig where
  min_dwell_startup : Nat
  min_dwell_degraded : Nat
  use_value_flags : Bool
  require_all_healthy : Bool
deriving DecidableEq, Inhabited

/-- `MODE_DEFAULT_CONFIG` of mode.h. -/
def MODE_DEFAULT_CONFIG : ModeConfig :=
  { min_dwell_startup := 10
    min_dwell_degraded := 5
    use_value_flags := true
    require_all_healthy := true }

/-- Result of one update, from `mode_result_t` of mode.h. -/
structure ModeResult where
  mode : SystemMode
  permissions : ModePermissions
  ticks_in_mode : Nat
  transitioned : Bool
  fault_active : Bool
deriving DecidableEq, Inhabited

/-- The manager aggregate, from `mode_manager_t` of mode.h.  The history is a
list of fixed length `MODE_HISTORY_SIZE` used as the circular buffer. -/
structure ModeManager where
  cfg : ModeConfig
  mode : SystemMode
  ticks_in_mode : Nat
  fault_active : Bool
  history : List ModeTransition
  history_head : Nat
  history_count : Nat
  total_transitions : Nat
  emergency_count : Nat
  initialized : Bool
deriving DecidableEq, Inhabited

/-- `MODE_HISTORY_SIZE` of mode.h. -/
def MODE_HISTORY_SIZE : Nat := 16

/-- `MODE_MODULE_COUNT` of mode.h. -/
def MODE_MODULE_COUNT : Nat := 6

/-- `TRIGGER_FLAGS` bit of mode.h. -/
def TRIGGER_FLAGS : Nat := 64

/-- `TRIGGER_RESET` bit of mode.h. -/
def TRIGGER_RESET : Nat := 128

/-- `MODE_OK` status code of mode.h. -/
def MODE_OK : Int := 0

/-- `MODE_ERR_NULL` status code of mode.h. -/
def MODE_ERR_NULL : Int := -1

/-- `MODE_ERR_CONFIG` status code of mode.h. -/
def MODE_ERR_CONFIG : Int := -2

/-- `MODE_ERR_STATE` status code of mode.h. -/
def MODE_ERR_STATE : Int := -3

/-- `MODE_ERR_LOCKED` status code of mode.h. -/
def MODE_ERR_LOCKED : Int := -4

/-- `all_modules_ok` of mode.c: no module is faulty or degraded. -/
def all_modules_ok (input : ModeInput) : Bool :=
  input.states.all fun h =>
    !(h == HealthState.faulty || h == HealthState.degraded)

/-- `all_modules_healthy` of mode.c: every module reports healthy. -/
def all_modules_healthy (input : ModeInput) : Bool :=
  input.states.all fun h => h == HealthState.healthy

/-- Bitmask accumulation of `any_module_faulty` / `any_module_degraded` of
mode.c: bit `i` is set when entry `i` satisfies the predicate. -/
def stateMask (p : HealthState → Bool) : List HealthState → Nat → Nat
  | [], _ => 0
  | h :: t, i => (if p h then 1 <<< i else 0) ||| stateMask p t (i + 1)

/-- Boolean result of `any_module_faulty` of mode.c. -/
def any_module_faulty (input : ModeInput) : Bool :=
  input.states.any fun h => h == HealthState.faulty

/-- The `trigger_mask` out-parameter of `any_module_faulty` of mode.c. -/
def faultyMask (input : ModeInput) : Nat :=
  stateMask (fun h => h == HealthState.faulty) input.states 0

/-- Boolean result of `any_module_degraded` of mode.c. -/
def any_module_degraded (input : ModeInput) : Bool :=
  input.states.any fun h => h == HealthState.degraded

/-- The `trigger_mask` out-parameter of `any_module_degraded` of mode.c. -/
def degradedMask (input : ModeInput) : Nat :=
  stateMask (fun h => h == HealthState.degraded) input.states 0

/-- `any_critical_flags` of mode.c. -/
def any_critical_flags (f : ModeFlags) : Bool :=
  f.approaching_upper || f.approaching_lower || f.low_confidence ||
    f.queue_critical || f.timing_unstable || f.baseline_volatile

/-- The flag-to-byte conversion at the top of `transition` in mode.c. -/
def flagsByte (f : ModeFlags) : Nat :=
  (if f.approaching_upper then 1 else 0) |||
  (if f.approaching_lower then 2 else 0) |||
  (if f.low_confidence then 4 else 0) |||
  (if f.queue_critical then 8 else 0) |||
  (if f.timing_unstable then 16 else 0) |||
  (if f.baseline_volatile then 32 else 0)

/-- `log_transition` of mode.c: write the record at the head slot, advance
the head, saturate the stored count at capacity, bump the counters. -/
def log_transition (m : ModeManager) (fromMode toMode : SystemMode)
    (trigger_mask flags_snapshot timestamp : Nat) : ModeManager :=
  { m with
    history := m.history.set m.history_head
      { timestamp := timestamp
        from_mode := fromMode
        to_mode := toMode
        trigger_mask := trigger_mask
        flags_snapshot := flags_snapshot }
    history_head := (m.history_head + 1) % MODE_HISTORY_SIZE
    history_count :=
      if m.history_count < MODE_HISTORY_SIZE then m.history_count + 1
      else m.history_count
    total_transitions := m.total_transitions + 1
    emergency_count :=
      if toMode = SystemMode.emergency then m.emergency_count + 1
      else m.emergency_count }

/-- `transition` of mode.c: log the record, install the new mode, clear the
dwell counter, latch the fault flag on entry to emergency. -/
def transition (m : ModeManager) (new_mode : SystemMode) (trigger_mask : Nat)
    (input : ModeInput) : ModeManager :=
  let m1 := log_transition m m.mode new_mode trigger_mask
    (flagsByte input.flags) input.timestamp
  { m1 with
    mode := new_mode
    ticks_in_mode := 0
    fault_active := if new_mode = SystemMode.emergency then true else m1.fault_active }

/-- The freshly initialised manager state built by `mode_init` of mode.c. -/
def freshManager (c : ModeConfig) : ModeManager :=
  { cfg := c
    mode := SystemMode.init
    ticks_in_mode := 0
    fault_active := false
    history := List.replicate MODE_HISTORY_SIZE default
    history_head := 0
    history_count := 0
    total_transitions := 0
    emergency_count := 0
    initialized := true }

/-- `mode_init` of mode.c: validate the supplied configuration (or take the
default when none is supplied) and build the initial state.  On a config
error no manager is produced. -/
def mode_init (cfg : Option ModeConfig) : Int × Option ModeManager :=
  match cfg with
  | some c =>
    if c.min_dwell_startup < 1 ∨ c.min_dwell_degraded < 1 then
      (MODE_ERR_CONFIG, none)
    else
      (MODE_OK, some (freshManager c))
  | none => (MODE_OK, some (freshManager MODE_DEFAULT_CONFIG))

/-- The body of `mode_update` of mode.c up to the `done:` label: the
emergency check followed by the per-mode switch.  Returns the possibly
transitioned manager and the `transitioned` flag. -/
def updateStep (m : ModeManager) (input : ModeInput) : ModeManager × Bool :=
  if (¬ m.mode = SystemMode.emergency ∧ ¬ m.mode = SystemMode.test) ∧
      any_module_faulty input = true then
    (transition m SystemMode.emergency (faultyMask input) input, true)
  else
    match m.mode with
    | SystemMode.init =>
      if all_modules_ok input = true then
        (transition m SystemMode.startup 0 input, true)
      else (m, false)
    | SystemMode.startup =>
      let ready :=
        if m.ticks_in_mode ≥ m.cfg.min_dwell_startup then
          if m.cfg.use_value_flags && any_critical_flags input.flags then false
          else all_modules_healthy input
        else false
      if ready = true then
        (transition m SystemMode.operational 0 input, true)
      else if any_module_degraded input = true then
        (transition m SystemMode.degraded (degradedMask input) input, true)
      else (m, false)
    | SystemMode.operational =>
      if any_module_degraded input = true then
        (transition m SystemMode.degraded (degradedMask input) input, true)
      else if m.cfg.use_value_flags && any_critical_flags input.flags then
        (transition m SystemMode.degraded TRIGGER_FLAGS input, true)
      else (m, false)
    | SystemMode.degraded =>
      let recovered :=
        if m.ticks_in_mode ≥ m.cfg.min_dwell_degraded then
          if m.cfg.use_value_flags && any_critical_flags input.flags then false
          else all_modules_healthy input
        else false
      if recovered = true then
        (transition m SystemMode.operational 0 input, true)
      else (m, false)
    | SystemMode.emergency => (m, false)
    | SystemMode.test => (m, false)

/-- `mode_update` of mode.c: the guard on `initialized`, the transition step,
the dwell bookkeeping at `done:`, and the filled result. -/
def mode_update (m : ModeManager) (input : ModeInput) :
    Int × ModeManager × Option ModeResult :=
  if m.initialized = false then (MODE_ERR_STATE, m, none)
  else
    let step := updateStep m input
    let m3 :=
      if step.2 = true then step.1
      else { step.1 with ticks_in_mode := step.1.ticks_in_mode + 1 }
    (MODE_OK, m3,
      some { mode := m3.mode
             permissions := MODE_PERMISSIONS m3.mode
             ticks_in_mode := m3.ticks_in_mode
             transitioned := step.2
             fault_active := m3.fault_active })
where
  /-- `MODE_PERMISSIONS` table of mode.h. -/
  MODE_PERMISSIONS : SystemMode → ModePermissions
    | SystemMode.init =>
      ⟨false, false, true, true⟩
    | SystemMode.startup =>
      ⟨false, true, true, true⟩
    | SystemMode.operational =>
      ⟨true, true, true, true⟩
    | SystemMode.degraded =>
      ⟨false, false, true, true⟩
    | SystemMode.emergency =>
      ⟨false, false, true, true⟩
    | SystemMode.test =>
      ⟨true, true, true, true⟩

/-- `mode_reset` of mode.c: unconditionally log a transition to init with the
manual-reset trigger, then clear mode, dwell and the fault flag. -/
def mode_reset (m : ModeManager) : ModeManager :=
  let m1 := log_transition m m.mode SystemMode.init TRIGGER_RESET 0 0
  { m1 with
    mode := SystemMode.init
    ticks_in_mode := 0
    fault_active := false }

/-- `mode_get_history` of mode.c: read up to `max_count` records from the
circular buffer, oldest first.  (The C rejects `max_count <= 0`; with `Nat`
that is the `max_count = 0` case.) -/
def mode_get_history (m : ModeManager) (max_count : Nat) : List ModeTransition :=
  if max_count = 0 then []
  else
    let count := if m.history_count < max_count then m.history_count else max_count
    let start := (m.history_head + MODE_HISTORY_SIZE - m.history_count) % MODE_HISTORY_SIZE
    (List.range count).map fun i =>
      m.history.getD ((start + i) % MODE_HISTORY_SIZE) default

/-- `mode_enter_test` of mode.c: locked out from emergency, otherwise log a
transition and install test mode. -/
def mode_enter_test (m : ModeManager) : Int × ModeManager :=
  if m.mode = SystemMode.emergency then (MODE_ERR_LOCKED, m)
  else
    let m1 := log_transition m m.mode SystemMode.test 0 0 0
    (MODE_OK, { m1 with mode := SystemMode.test, ticks_in_mode := 0 })

/-- `mode_exit_test` of mode.c: a no-op unless in test mode, otherwise log a
transition back to init. -/
def mode_exit_test (m : ModeManager) : ModeManager :=
  if ¬ m.mode = SystemMode.test then m
  else
    let m1 := log_transition m SystemMode.test SystemMode.init TRIGGER_RESET 0 0
    { m1 with mode := SystemMode.init, ticks_in_mode := 0 }

/-- Run a sequence of update calls, keeping the manager state after each. -/
def runUpdates (m : ModeManager) (inputs : List ModeInput) : ModeManager :=
  inputs.foldl (fun s i => (mode_update s i).2.1) m

/-! Concrete fixtures used by witnesses and concrete runs. -/

/-- A valid configuration with both dwell minimums 1 and flags enabled. -/
def cfg11 : ModeConfig := ⟨1, 1, true, true⟩

/-- The configuration of the spec example: dwell minimums 5 and 3. -/
def cfg53 : ModeConfig := ⟨5, 3, true, true⟩

/-- An invalid configuration: startup dwell minimum 0. -/
def cfgBad : ModeConfig := ⟨0, 3, true, true⟩

/-- No warning flag set. -/
def noFlags : ModeFlags := ⟨false, false, false, false, false, false⟩

/-- All six channels healthy, no flags. -/
def inAllHealthy : ModeInput := ⟨List.replicate 6 HealthState.healthy, noFlags, 0⟩

/-- All six channels learning, no flags. -/
def inAllLearning : ModeInput := ⟨List.replicate 6 HealthState.learning, noFlags, 0⟩

/-- Channel 0 learning, the rest healthy, no flags. -/
def inOneLearning : ModeInput :=
  ⟨HealthState.learning :: List.replicate 5 HealthState.healthy, noFlags, 0⟩

/-- Channel 0 faulty, the rest healthy, no flags. -/
def inOneFaulty : ModeInput :=
  ⟨HealthState.faulty :: List.replicate 5 HealthState.healthy, noFlags, 7⟩

/-- A manager sitting in emergency mode with the fault flag latched. -/
def mEmergency : ModeManager :=
  { freshManager MODE_DEFAULT_CONFIG with
    mode := SystemMode.emergency
    fault_active := true }

/-! The audit-log abstraction used to state the history claims: a ghost list
of every record ever appended, oldest first, related to the circular buffer
by the invariant below. -/

/-- Slot contents of the circular buffer: record number `j` of the full log
lives in slot `j mod 16` as long as it has not been overwritten (which
happens once at least 16 further records have been appended). -/
def histSlots (m : ModeManager) (log : List ModeTransition) : Prop :=
  ∀ j, j < log.length → log.length ≤ j + MODE_HISTORY_SIZE →
    m.history.getD (j % MODE_HISTORY_SIZE) default = log.getD j default

/-- The circular-buffer representation invariant that ties a manager to the
full chronological log of appended records. -/
def histInv (m : ModeManager) (log : List ModeTransition) : Prop :=
  m.history.length = MODE_HISTORY_SIZE ∧
  m.total_transitions = log.length ∧
  m.history_head = log.length % MODE_HISTORY_SIZE ∧
  m.history_count = min log.length MODE_HISTORY_SIZE ∧
  histSlots m log

/-- The first record ever appended departs from init. -/
def firstFromInit (log : List ModeTransition) : Prop :=
  0 < log.length → (log.getD 0 default).from_mode = SystemMode.init

/-- Full state invariant carried through every reachable state. -/
def Inv (m : ModeManager) (log : List ModeTransition) : Prop :=
  histInv m log ∧ firstFromInit log ∧
  (log.length = 0 → m.mode = SystemMode.init)

/-- The records one `mode_update` call appends: the single record written at
the old head slot when the call transitioned, nothing otherwise. -/
def updateAppended (m : ModeManager) (input : ModeInput) : List ModeTransition :=
  match (mode_update m input).2.2 with
  | some r =>
    if r.transitioned = true then
      [(mode_update m input).2.1.history.getD m.history_head default]
    else []
  | none => []

/-- Reachable manager states paired with the chronological list of all audit
records ever appended to them (ghost log).  One constructor per entry point
of the API. -/
inductive ReachedWithLog : ModeManager → List ModeTransition → Prop
  | fromInit (cfg : Option ModeConfig) (m : ModeManager) :
      mode_init cfg = (MODE_OK, some m) → ReachedWithLog m []
  | fromUpdate (m : ModeManager) (log : List ModeTransition) (input : ModeInput) :
      ReachedWithLog m log →
      ReachedWithLog (mode_update m input).2.1 (log ++ updateAppended m input)
  | fromReset (m : ModeManager) (log : List ModeTransition) :
      ReachedWithLog m log →
      ReachedWithLog (mode_reset m)
        (log ++ [(mode_reset m).history.getD m.history_head default])
  | fromEnterTest (m : ModeManager) (log : List ModeTransition) :
      ReachedWithLog m log →
      ReachedWithLog (mode_enter_test m).2
        (log ++ if m.mode = SystemMode.emergency then []
                else [(mode_enter_test m).2.history.getD m.history_head default])
  | fromExitTest (m : ModeManager) (log : List ModeTransition) :
      ReachedWithLog m log →
      ReachedWithLog (mode_exit_test m)
        (log ++ if m.mode = SystemMode.test then
                  [(mode_exit_test m).history.getD m.history_head default]
                else [])

/-! Helper lemmas on list reads through `getD`. -/

theorem getD_set_self {α : Type} (l : List α) (i : Nat) (a d : α)
    (h : i < l.length) : (l.set i a).getD i d = a := by
  rw [List.getD_eq_getElem _ _ (by rw [List.length_set]; exact h)]
  exact List.getElem_set_self _

theorem getD_set_ne {α : Type} (l : List α) (i j : Nat) (a d : α)
    (hne : i ≠ j) (hj : j < l.length) :
    (l.set i a).getD j d = l.getD j d := by
  rw [List.getD_eq_getElem _ _ (by rw [List.length_set]; exact hj),
    List.getD_eq_getElem _ _ hj]
  exact List.getElem_set_ne hne _

theorem getD_append_last {α : Type} (l : List α) (a d : α) :
    (l ++ [a]).getD l.length d = a := by
  rw [List.getD_append_right _ _ _ _ (Nat.le_refl _)]
  simp

/-! Structural case analysis of one update step. -/

theorem updateStep_cases (m : ModeManager) (input : ModeInput) :
    updateStep m input = (m, false) ∨
    ∃ nm mask, ¬ nm = m.mode ∧
      updateStep m input = (transition m nm mask input, true) := by
  unfold updateStep
  split
  next hem =>
    right
    exact ⟨SystemMode.emergency, faultyMask input,
      fun h => hem.1.1 h.symm, rfl⟩
  next hem =>
    cases hm : m.mode <;> dsimp only
    case init =>
      by_cases hok : all_modules_ok input = true
      · rw [if_pos hok]
        right; exact ⟨SystemMode.startup, 0, by decide, rfl⟩
      · rw [if_neg hok]
        left; rfl
    case startup =>
      by_cases hready : (if m.ticks_in_mode ≥ m.cfg.min_dwell_startup then
          if (m.cfg.use_value_flags && any_critical_flags input.flags) = true then false
          else all_modules_healthy input
        else false) = true
      · rw [if_pos hready]
        right; exact ⟨SystemMode.operational, 0, by decide, rfl⟩
      · rw [if_neg hready]
        by_cases hdeg : any_module_degraded input = true
        · rw [if_pos hdeg]
          right; exact ⟨SystemMode.degraded, degradedMask input, by decide, rfl⟩
        · rw [if_neg hdeg]
          left; rfl
    case operational =>
      by_cases hdeg : any_module_degraded input = true
      · rw [if_pos hdeg]
        right; exact ⟨SystemMode.degraded, degradedMask input, by decide, rfl⟩
      · rw [if_neg hdeg]
        by_cases hfl : (m.cfg.use_value_flags && any_critical_flags input.flags) = true
        · rw [if_pos hfl]
          right; exact ⟨SystemMode.degraded, TRIGGER_FLAGS, by decide, rfl⟩
        · rw [if_neg hfl]
          left; rfl
    case degraded =>
      by_cases hready : (if m.ticks_in_mode ≥ m.cfg.min_dwell_degraded then
          if (m.cfg.use_value_flags && any_critical_flags input.flags) = true then false
          else all_modules_healthy input
        else false) = true
      · rw [if_pos hready]
        right; exact ⟨SystemMode.operational, 0, by decide, rfl⟩
      · rw [if_neg hready]
        left; rfl
    case emergency => left; rfl
    case test => left; rfl

theorem mode_update_step_false (m : ModeManager) (input : ModeInput)
    (h : m.initialized = true) (hs : updateStep m input = (m, false)) :
    mode_update m input =
      (MODE_OK, { m with ticks_in_mode := m.ticks_in_mode + 1 },
        some { mode := m.mode
               permissions := mode_update.MODE_PERMISSIONS m.mode
               ticks_in_mode := m.ticks_in_mode + 1
               transitioned := false
               fault_active := m.fault_active }) := by
  unfold mode_update
  rw [h, hs]
  simp [h]

theorem mode_update_step_true (m : ModeManager) (input : ModeInput)
    (h : m.initialized = true) {m2 : ModeManager}
    (hs : updateStep m input = (m2, true)) :
    mode_update m input =
      (MODE_OK, m2,
        some { mode := m2.mode
               permissions := mode_update.MODE_PERMISSIONS m2.mode
               ticks_in_mode := m2.ticks_in_mode
               transitioned := true
               fault_active := m2.fault_active }) := by
  unfold mode_update
  rw [h, hs]
  simp [h]

theorem mode_update_uninitialized (m : ModeManager) (input : ModeInput)
    (h : m.initialized = false) :
    mode_update m input = (MODE_ERR_STATE, m, none) := by
  unfold mode_update
  rw [h]
  rfl

/-! Relations between the health predicates. -/

theorem all_healthy_not_faulty (input : ModeInput)
    (h : all_modules_healthy input = true) : any_module_faulty input = false := by
  rw [Bool.eq_false_iff]
  intro hany
  rcases List.any_eq_true.mp hany with ⟨x, hx, hfx⟩
  have hh := List.all_eq_true.mp h x hx
  rw [beq_iff_eq] at hh hfx
  rw [hh] at hfx
  cases hfx

theorem all_healthy_ok (input : ModeInput)
    (h : all_modules_healthy input = true) : all_modules_ok input = true := by
  rw [all_modules_ok, List.all_eq_true]
  intro x hx
  have hh := List.all_eq_true.mp h x hx
  rw [beq_iff_eq] at hh
  rw [hh]
  rfl

/-! Claim C2: emergency is sticky under update and left only by reset. -/

theorem updateStep_emergency (m : ModeManager) (input : ModeInput)
    (h : m.mode = SystemMode.emergency) : updateStep m input = (m, false) := by
  unfold updateStep
  rw [if_neg (by rintro ⟨⟨h1, _⟩, _⟩; exact h1 h), h]

theorem update_keeps_emergency (m : ModeManager) (input : ModeInput)
    (h : m.mode = SystemMode.emergency) :
    (mode_update m input).2.1.mode = SystemMode.emergency := by
  by_cases hi : m.initialized = true
  · rw [mode_update_step_false m input hi (updateStep_emergency m input h)]
    exact h
  · rw [mode_update_uninitialized m input (by
      rw [Bool.not_eq_true] at hi; exact hi)]
    exact h

theorem runUpdates_emergency (m : ModeManager) (inputs : List ModeInput)
    (h : m.mode = SystemMode.emergency) :
    (runUpdates m inputs).mode = SystemMode.emergency := by
  induction inputs generalizing m with
  | nil => exact h
  | cons i t ih => exact ih _ (update_keeps_emergency m i h)

/-- Claim C2: once the mode is Emergency, no sequence of update calls —
whatever their health reports, flags or timestamps — changes the mode; and
immediately after `mode_reset` the mode is Init, the dwell counter is 0 and
the fault-active flag is cleared. -/
theorem emergency_sticky_until_reset (m : ModeManager) (inputs : List ModeInput)
    (h : m.mode = SystemMode.emergency) :
    (runUpdates m inputs).mode = SystemMode.emergency ∧
    (mode_reset (runUpdates m inputs)).mode = SystemMode.init ∧
    (mode_reset (runUpdates m inputs)).ticks_in_mode = 0 ∧
    (mode_reset (runUpdates m inputs)).fault_active = false :=
  ⟨runUpdates_emergency m inputs h, rfl, rfl, rfl⟩

/-- Witness for C2 at a concrete emergency state and a two-cycle all-healthy
input sequence. -/
theorem emergency_sticky_witness :
    (runUpdates mEmergency [inAllHealthy, inAllHealthy]).mode = SystemMode.emergency ∧
    (mode_reset (runUpdates mEmergency [inAllHealthy, inAllHealthy])).mode = SystemMode.init ∧
    (mode_reset (runUpdates mEmergency [inAllHealthy, inAllHealthy])).ticks_in_mode = 0 ∧
    (mode_reset (runUpdates mEmergency [inAllHealthy, inAllHealthy])).fault_active = false :=
  emergency_sticky_until_reset mEmergency [inAllHealthy, inAllHealthy] rfl

/-! Claim C7: enter_test is locked out exactly in emergency. -/

/-- Claim C7: `mode_enter_test` returns `MODE_ERR_LOCKED` exactly when the
mode is Emergency, and then the whole manager is unchanged; from any other
mode it succeeds, records one transition and installs Test mode. -/
theorem enter_test_locked_iff (m : ModeManager) :
    ((mode_enter_test m).1 = MODE_ERR_LOCKED ↔ m.mode = SystemMode.emergency) ∧
    (m.mode = SystemMode.emergency → mode_enter_test m = (MODE_ERR_LOCKED, m)) ∧
    (¬ m.mode = SystemMode.emergency →
      (mode_enter_test m).1 = MODE_OK ∧
      (mode_enter_test m).2.mode = SystemMode.test ∧
      (mode_enter_test m).2.total_transitions = m.total_transitions + 1) := by
  by_cases h : m.mode = SystemMode.emergency
  · have he : mode_enter_test m = (MODE_ERR_LOCKED, m) := by
      unfold mode_enter_test
      rw [if_pos h]
    exact ⟨⟨fun _ => h, fun _ => by rw [he]⟩, fun _ => he, fun hn => absurd h hn⟩
  · have he : mode_enter_test m =
        (MODE_OK,
          { log_transition m m.mode SystemMode.test 0 0 0 with
            mode := SystemMode.test
            ticks_in_mode := 0 }) := by
      unfold mode_enter_test
      rw [if_neg h]
    refine ⟨⟨fun hl => ?_, fun hem => absurd hem h⟩, fun hem => absurd hem h,
      fun _ => ⟨?_, ?_, ?_⟩⟩
    · rw [he] at hl
      have hterm : (MODE_OK : Int) = MODE_ERR_LOCKED := hl
      exact absurd hterm (by decide)
    · rw [he]
    · rw [he]
    · rw [he]
      rfl

/-- Witness for C7: entering Test from the concrete emergency state is
rejected with the manager unchanged. -/
theorem enter_test_locked_witness :
    mode_enter_test mEmergency = (MODE_ERR_LOCKED, mEmergency) :=
  (enter_test_locked_iff mEmergency).2.1 rfl

/-! Claim C8: init validation and the freshly initialised state. -/

/-- Claim C8: `mode_init` rejects a supplied config with either dwell
minimum below 1 with `MODE_ERR_CONFIG` and produces no manager; otherwise it
succeeds and the fresh manager is in Init with zero dwell, no fault, empty
history and zero counters. -/
theorem init_validation (c : ModeConfig) :
    ((c.min_dwell_startup < 1 ∨ c.min_dwell_degraded < 1) →
      mode_init (some c) = (MODE_ERR_CONFIG, none)) ∧
    (¬ (c.min_dwell_startup < 1 ∨ c.min_dwell_degraded < 1) →
      mode_init (some c) = (MODE_OK, some (freshManager c)) ∧
      (freshManager c).mode = SystemMode.init ∧
      (freshManager c).ticks_in_mode = 0 ∧
      (freshManager c).fault_active = false ∧
      (freshManager c).history_count = 0 ∧
      mode_get_history (freshManager c) 16 = [] ∧
      (freshManager c).total_transitions = 0 ∧
      (freshManager c).emergency_count = 0) := by
  constructor
  · intro h
    rw [mode_init, if_pos h]
  · intro h
    exact ⟨by rw [mode_init, if_neg h], rfl, rfl, rfl, rfl, rfl, rfl, rfl⟩

/-- Witness for C8: a config with startup dwell 0 is rejected. -/
theorem init_validation_witness :
    mode_init (some cfgBad) = (MODE_ERR_CONFIG, none) :=
  (init_validation cfgBad).1 (by decide)

/-! The record written at the old head slot by one `log_transition`. -/

theorem log_transition_record (m : ModeManager) (fromMode toMode : SystemMode)
    (k fs ts : Nat) (hlen : m.history.length = 16) (hhead : m.history_head < 16) :
    (log_transition m fromMode toMode k fs ts).history.getD m.history_head default =
      { timestamp := ts
        from_mode := fromMode
        to_mode := toMode
        trigger_mask := k
        flags_snapshot := fs } := by
  show (m.history.set m.history_head _).getD m.history_head default = _
  exact getD_set_self _ _ _ _ (by rw [hlen]; exact hhead)

/-! Claim C3: fault escalation fires first and in the same cycle. -/

/-- Claim C3: from any mode other than Emergency and Test, a faulty channel
makes the very same update call transition to Emergency: the returned state
is exactly the fault-escalation transition (so no mode-specific rule fired),
the result reports transitioned and fault-active, and the record written at
the head slot carries the faulty-channel bitmask as its cause. -/
theorem fault_escalation_immediate (m : ModeManager) (input : ModeInput)
    (hinit : m.initialized = true)
    (hem : ¬ m.mode = SystemMode.emergency) (hts : ¬ m.mode = SystemMode.test)
    (hf : any_module_faulty input = true)
    (hlen : m.history.length = 16) (hhead : m.history_head < 16) :
    mode_update m input =
      (MODE_OK, transition m SystemMode.emergency (faultyMask input) input,
        some { mode := SystemMode.emergency
               permissions := mode_update.MODE_PERMISSIONS SystemMode.emergency
               ticks_in_mode := 0
               transitioned := true
               fault_active := true }) ∧
    (transition m SystemMode.emergency (faultyMask input) input).history.getD
        m.history_head default =
      { timestamp := input.timestamp
        from_mode := m.mode
        to_mode := SystemMode.emergency
        trigger_mask := faultyMask input
        flags_snapshot := flagsByte input.flags } := by
  have hs : updateStep m input =
      (transition m SystemMode.emergency (faultyMask input) input, true) := by
    unfold updateStep
    rw [if_pos ⟨⟨hem, hts⟩, hf⟩]
  exact ⟨mode_update_step_true m input hinit hs,
    log_transition_record m m.mode SystemMode.emergency (faultyMask input)
      (flagsByte input.flags) input.timestamp hlen hhead⟩

/-- Witness for C3 at the fresh manager and a report with channel 0 faulty. -/
theorem fault_escalation_witness :
    mode_update (freshManager cfg11) inOneFaulty =
      (MODE_OK,
        transition (freshManager cfg11) SystemMode.emergency
          (faultyMask inOneFaulty) inOneFaulty,
        some { mode := SystemMode.emergency
               permissions := mode_update.MODE_PERMISSIONS SystemMode.emergency
               ticks_in_mode := 0
               transitioned := true
               fault_active := true }) ∧
    (transition (freshManager cfg11) SystemMode.emergency (faultyMask inOneFaulty)
        inOneFaulty).history.getD (freshManager cfg11).history_head default =
      { timestamp := inOneFaulty.timestamp
        from_mode := (freshManager cfg11).mode
        to_mode := SystemMode.emergency
        trigger_mask := faultyMask inOneFaulty
        flags_snapshot := flagsByte inOneFaulty.flags } :=
  fault_escalation_immediate (freshManager cfg11) inOneFaulty rfl (by decide)
    (by decide) (by decide) (by decide) (by decide)

/-! Claim C5: transition counter accounting, as the code actually behaves. -/

/-- Counterexample to C5 as stated: calling `mode_reset` on a fresh manager
in Init changes no mode (Init before and after) yet increments the
total-transition counter from 0 to 1 — the counter can grow on a call that
does not change the mode. -/
theorem reset_increments_without_mode_change :
    (freshManager cfg11).mode = SystemMode.init ∧
    (freshManager cfg11).total_transitions = 0 ∧
    (mode_reset (freshManager cfg11)).mode = SystemMode.init ∧
    (mode_reset (freshManager cfg11)).total_transitions = 1 :=
  ⟨rfl, rfl, rfl, rfl⟩

/-- Claim C5 (amended): `mode_update` bumps the total-transition counter by
exactly 1 when it changes the mode and by 0 otherwise; `mode_reset` and a
successful `mode_enter_test` always record one transition (counter +1) even
when the from- and to-modes coincide; `mode_exit_test` records one
transition when in Test and leaves the manager entirely unchanged
otherwise. -/
theorem transition_counter_per_op (m : ModeManager) (input : ModeInput)
    (hinit : m.initialized = true) :
    (∀ m3 r code, mode_update m input = (code, m3, some r) →
      (r.transitioned = true →
        m3.total_transitions = m.total_transitions + 1 ∧ ¬ m3.mode = m.mode) ∧
      (r.transitioned = false →
        m3.total_transitions = m.total_transitions ∧ m3.mode = m.mode)) ∧
    (mode_reset m).total_transitions = m.total_transitions + 1 ∧
    (m.mode = SystemMode.emergency → mode_enter_test m = (MODE_ERR_LOCKED, m)) ∧
    (¬ m.mode = SystemMode.emergency →
      (mode_enter_test m).2.total_transitions = m.total_transitions + 1) ∧
    (m.mode = SystemMode.test →
      (mode_exit_test m).total_transitions = m.total_transitions + 1) ∧
    (¬ m.mode = SystemMode.test → mode_exit_test m = m) := by
  refine ⟨?_, rfl, ?_, ?_, ?_, ?_⟩
  · intro m3 r code hmr
    rcases updateStep_cases m input with hs | ⟨nm, mask, hne, hs⟩
    · rw [mode_update_step_false m input hinit hs] at hmr
      simp only [Prod.mk.injEq, Option.some.injEq] at hmr
      obtain ⟨-, hm3, hr⟩ := hmr
      subst hm3
      subst hr
      refine ⟨fun ht => ?_, fun _ => ⟨rfl, rfl⟩⟩
      simp at ht
    · rw [mode_update_step_true m input hinit hs] at hmr
      simp only [Prod.mk.injEq, Option.some.injEq] at hmr
      obtain ⟨-, hm3, hr⟩ := hmr
      subst hm3
      subst hr
      refine ⟨fun _ => ⟨rfl, hne⟩, fun hfalse => ?_⟩
      simp at hfalse
  · intro h
    unfold mode_enter_test
    rw [if_pos h]
  · intro h
    unfold mode_enter_test
    rw [if_neg h]
    rfl
  · intro h
    unfold mode_exit_test
    rw [if_neg (not_not_intro h)]
    rfl
  · intro h
    unfold mode_exit_test
    rw [if_pos h]

/-- Witness for C5 at the fresh manager: reset bumps the counter by one. -/
theorem transition_counter_witness :
    (mode_reset (freshManager cfg11)).total_transitions =
      (freshManager cfg11).total_transitions + 1 :=
  (transition_counter_per_op (freshManager cfg11) inAllHealthy rfl).2.1

/-! Claim C9: Init never jumps straight to Operational. -/

/-- Claim C9: from Init, an update never yields Operational for any input;
with an all-healthy report (whatever the flags) it yields Startup with a
transition, and the returned result mode always equals the new state's
mode. -/
theorem no_skip_from_init (m : ModeManager) (input : ModeInput)
    (hinit : m.initialized = true) (hm : m.mode = SystemMode.init) :
    ¬ (mode_update m input).2.1.mode = SystemMode.operational ∧
    ((mode_update m input).2.2.map fun r => r.mode) =
      some (mode_update m input).2.1.mode ∧
    (all_modules_healthy input = true →
      (mode_update m input).2.1.mode = SystemMode.startup ∧
      ((mode_update m input).2.2.map fun r => r.transitioned) = some true) := by
  by_cases hf : any_module_faulty input = true
  · have hs : updateStep m input =
        (transition m SystemMode.emergency (faultyMask input) input, true) := by
      unfold updateStep
      rw [if_pos ⟨⟨by rw [hm]; decide, by rw [hm]; decide⟩, hf⟩]
    rw [mode_update_step_true m input hinit hs]
    refine ⟨?_, rfl, fun hall => ?_⟩
    · exact (by decide : ¬ SystemMode.emergency = SystemMode.operational)
    · rw [all_healthy_not_faulty input hall] at hf
      exact absurd hf (by decide)
  · by_cases hok : all_modules_ok input = true
    · have hs : updateStep m input =
          (transition m SystemMode.startup 0 input, true) := by
        unfold updateStep
        rw [if_neg fun hc => hf hc.2, hm]
        dsimp only
        rw [if_pos hok]
      rw [mode_update_step_true m input hinit hs]
      exact ⟨(by decide : ¬ SystemMode.startup = SystemMode.operational), rfl,
        fun _ => ⟨rfl, rfl⟩⟩
    · have hs : updateStep m input = (m, false) := by
        unfold updateStep
        rw [if_neg fun hc => hf hc.2, hm]
        dsimp only
        rw [if_neg hok]
      rw [mode_update_step_false m input hinit hs]
      refine ⟨fun hc => ?_, rfl, fun hall => absurd (all_healthy_ok input hall) hok⟩
      have h2 : m.mode = SystemMode.operational := hc
      rw [hm] at h2
      exact absurd h2 (by decide)

/-- Witness for C9 at the fresh manager and the all-healthy report. -/
theorem no_skip_witness :
    ¬ (mode_update (freshManager cfg11) inAllHealthy).2.1.mode = SystemMode.operational ∧
    ((mode_update (freshManager cfg11) inAllHealthy).2.2.map fun r => r.mode) =
      some (mode_update (freshManager cfg11) inAllHealthy).2.1.mode ∧
    (all_modules_healthy inAllHealthy = true →
      (mode_update (freshManager cfg11) inAllHealthy).2.1.mode = SystemMode.startup ∧
      ((mode_update (freshManager cfg11) inAllHealthy).2.2.map
        fun r => r.transitioned) = some true) :=
  no_skip_from_init (freshManager cfg11) inAllHealthy rfl rfl

/-! Claim C10: manual records carry timestamp 0 and empty flag snapshot. -/

/-- Claim C10: the records appended by `mode_reset`, a successful
`mode_enter_test` and `mode_exit_test` from Test carry timestamp 0 and an
empty flags snapshot; a record appended by a transitioning `mode_update`
carries the input's timestamp and flag byte. -/
theorem manual_records_zero_stamp (m : ModeManager) (input : ModeInput)
    (hlen : m.history.length = 16) (hhead : m.history_head < 16) :
    (mode_reset m).history.getD m.history_head default =
      { timestamp := 0
        from_mode := m.mode
        to_mode := SystemMode.init
        trigger_mask := TRIGGER_RESET
        flags_snapshot := 0 } ∧
    (¬ m.mode = SystemMode.emergency →
      (mode_enter_test m).2.history.getD m.history_head default =
        { timestamp := 0
          from_mode := m.mode
          to_mode := SystemMode.test
          trigger_mask := 0
          flags_snapshot := 0 }) ∧
    (m.mode = SystemMode.test →
      (mode_exit_test m).history.getD m.history_head default =
        { timestamp := 0
          from_mode := SystemMode.test
          to_mode := SystemMode.init
          trigger_mask := TRIGGER_RESET
          flags_snapshot := 0 }) ∧
    (∀ m3 r code, mode_update m input = (code, m3, some r) →
      r.transitioned = true →
      (m3.history.getD m.history_head default).timestamp = input.timestamp ∧
      (m3.history.getD m.history_head default).flags_snapshot =
        flagsByte input.flags) := by
  refine ⟨?_, ?_, ?_, ?_⟩
  · exact log_transition_record m m.mode SystemMode.init TRIGGER_RESET 0 0 hlen hhead
  · intro h
    have he : (mode_enter_test m).2 =
        { log_transition m m.mode SystemMode.test 0 0 0 with
          mode := SystemMode.test
          ticks_in_mode := 0 } := by
      unfold mode_enter_test
      rw [if_neg h]
    rw [he]
    exact log_transition_record m m.mode SystemMode.test 0 0 0 hlen hhead
  · intro h
    have he : mode_exit_test m =
        { log_transition m SystemMode.test SystemMode.init TRIGGER_RESET 0 0 with
          mode := SystemMode.init
          ticks_in_mode := 0 } := by
      unfold mode_exit_test
      rw [if_neg (not_not_intro h)]
    rw [he]
    exact log_transition_record m SystemMode.test SystemMode.init TRIGGER_RESET 0 0 hlen hhead
  · intro m3 r code hmr ht
    by_cases hi : m.initialized = true
    · rcases updateStep_cases m input with hs | ⟨nm, mask, hne, hs⟩
      · rw [mode_update_step_false m input hi hs] at hmr
        simp only [Prod.mk.injEq, Option.some.injEq] at hmr
        obtain ⟨-, -, hr⟩ := hmr
        subst hr
        simp at ht
      · rw [mode_update_step_true m input hi hs] at hmr
        simp only [Prod.mk.injEq, Option.some.injEq] at hmr
        obtain ⟨-, hm3, -⟩ := hmr
        subst hm3
        have hrec := log_transition_record m m.mode nm mask
          (flagsByte input.flags) input.timestamp hlen hhead
        constructor
        · show ((log_transition m m.mode nm mask (flagsByte input.flags)
            input.timestamp).history.getD m.history_head default).timestamp =
            input.timestamp
          rw [hrec]
        · show ((log_transition m m.mode nm mask (flagsByte input.flags)
            input.timestamp).history.getD m.history_head default).flags_snapshot =
            flagsByte input.flags
          rw [hrec]
    · rw [mode_update_uninitialized m input (Bool.eq_false_iff.mpr hi)] at hmr
      simp only [Prod.mk.injEq] at hmr
      exact Option.noConfusion hmr.2.2

/-- Witness for C10: the reset record of the fresh manager. -/
theorem manual_records_witness :
    (mode_reset (freshManager cfg11)).history.getD
        (freshManager cfg11).history_head default =
      { timestamp := 0
        from_mode := (freshManager cfg11).mode
        to_mode := SystemMode.init
        trigger_mask := TRIGGER_RESET
        flags_snapshot := 0 } :=
  (manual_records_zero_stamp (freshManager cfg11) inAllHealthy
    (by decide) (by decide)).1

/-! Claim C6: the circular audit buffer against the chronological log. -/

theorem histInv_fields (m m' : ModeManager) (log : List ModeTransition)
    (hh : m'.history = m.history) (hd : m'.history_head = m.history_head)
    (hc : m'.history_count = m.history_count)
    (ht : m'.total_transitions = m.total_transitions)
    (h : histInv m log) : histInv m' log := by
  obtain ⟨h1, h2, h3, h4, h5⟩ := h
  refine ⟨?_, ?_, ?_, ?_, ?_⟩
  · rw [hh]; exact h1
  · rw [ht]; exact h2
  · rw [hd]; exact h3
  · rw [hc]; exact h4
  · intro j hj1 hj2
    rw [hh]
    exact h5 j hj1 hj2

theorem Inv_override (m1 : ModeManager) (log' : List ModeTransition)
    (h : Inv m1 log') (hne : ¬ log'.length = 0)
    (md : SystemMode) (tk : Nat) (fa : Bool) :
    Inv { m1 with mode := md, ticks_in_mode := tk, fault_active := fa } log' :=
  ⟨histInv_fields m1 _ log' rfl rfl rfl rfl h.1, h.2.1, fun hc => absurd hc hne⟩

theorem Inv_log_transition (m : ModeManager) (log : List ModeTransition)
    (h : Inv m log) (toMode : SystemMode) (k fs ts : Nat) :
    Inv (log_transition m m.mode toMode k fs ts)
      (log ++ [{ timestamp := ts
                 from_mode := m.mode
                 to_mode := toMode
                 trigger_mask := k
                 flags_snapshot := fs }]) ∧
    (log_transition m m.mode toMode k fs ts).history.getD m.history_head default =
      { timestamp := ts
        from_mode := m.mode
        to_mode := toMode
        trigger_mask := k
        flags_snapshot := fs } := by
  obtain ⟨⟨hlen, htot, hhead, hcount, hslots⟩, hfirst, hmode0⟩ := h
  have hsz : MODE_HISTORY_SIZE = 16 := rfl
  have hlen2 : m.history.length = 16 := hlen
  have hhead2 : m.history_head = log.length % 16 := hhead
  have hcount2 : m.history_count = min log.length 16 := hcount
  have hslots2 : ∀ j, j < log.length → log.length ≤ j + 16 →
      m.history.getD (j % 16) default = log.getD j default := hslots
  have hhead16 : m.history_head < 16 := by
    rw [hhead2]
    omega
  have hrec := log_transition_record m m.mode toMode k fs ts hlen2 hhead16
  refine ⟨⟨⟨?_, ?_, ?_, ?_, ?_⟩, ?_, ?_⟩, hrec⟩
  · simp only [log_transition]
    rw [List.length_set]
    exact hlen
  · simp only [log_transition]
    rw [htot, List.length_append]
    rfl
  · simp only [log_transition, hsz]
    rw [hhead2, List.length_append]
    simp only [List.length_cons, List.length_nil]
    omega
  · simp only [log_transition, hsz]
    rw [hcount2, List.length_append]
    simp only [List.length_cons, List.length_nil]
    split <;> omega
  · intro j hj1 hj2
    rw [List.length_append, List.length_cons, List.length_nil] at hj1 hj2
    have hj2c : log.length + (0 + 1) ≤ j + 16 := hj2
    simp only [log_transition, hsz]
    by_cases hjl : j = log.length
    · subst hjl
      rw [← hhead2, getD_set_self _ _ _ _ (by rw [hlen2]; exact hhead16),
        getD_append_last]
    · have hjlt : j < log.length := by omega
      have hne2 : m.history_head ≠ j % 16 := by
        rw [hhead2]
        omega
      rw [getD_set_ne _ _ _ _ _ hne2 (by rw [hlen2]; omega),
        List.getD_append _ _ _ _ hjlt]
      exact hslots2 j hjlt (by omega)
  · intro h0
    by_cases hl0 : log.length = 0
    · have hnil : log = [] := List.length_eq_zero.mp hl0
      subst hnil
      exact hmode0 rfl
    · have hpos : 0 < log.length := Nat.pos_of_ne_zero hl0
      rw [List.getD_append _ _ _ _ hpos]
      exact hfirst hpos
  · intro hc
    rw [List.length_append, List.length_cons, List.length_nil] at hc
    omega

theorem Inv_fresh (c : ModeConfig) : Inv (freshManager c) [] := by
  refine ⟨⟨?_, rfl, rfl, by simp [freshManager], ?_⟩, ?_, fun _ => rfl⟩
  · exact List.length_replicate _ _
  · intro j hj _
    exact absurd hj (by simp)
  · intro h0
    exact absurd h0 (by decide)

theorem Inv_update (m : ModeManager) (log : List ModeTransition)
    (h : Inv m log) (input : ModeInput) :
    Inv (mode_update m input).2.1 (log ++ updateAppended m input) := by
  by_cases hi : m.initialized = true
  · rcases updateStep_cases m input with hs | ⟨nm, mask, hne, hs⟩
    · have hu := mode_update_step_false m input hi hs
      have ha : updateAppended m input = [] := by
        unfold updateAppended
        rw [hu]
        rfl
      rw [ha, List.append_nil, hu]
      exact ⟨histInv_fields m _ log rfl rfl rfl rfl h.1, h.2.1, h.2.2⟩
    · have hu := mode_update_step_true m input hi hs
      have ha : updateAppended m input =
          [(transition m nm mask input).history.getD m.history_head default] := by
        unfold updateAppended
        rw [hu]
        rfl
      rw [ha, hu]
      have key := Inv_log_transition m log h nm mask
      show Inv (transition m nm mask input)
        (log ++ [(log_transition m m.mode nm mask (flagsByte input.flags)
          input.timestamp).history.getD m.history_head default])
      rw [(key (flagsByte input.flags) input.timestamp).2]
      exact Inv_override _ _ (key (flagsByte input.flags) input.timestamp).1
        (by simp) nm 0 _
  · have hu := mode_update_uninitialized m input (Bool.eq_false_iff.mpr hi)
    have ha : updateAppended m input = [] := by
      unfold updateAppended
      rw [hu]
    rw [ha, List.append_nil, hu]
    exact h

theorem Inv_reset (m : ModeManager) (log : List ModeTransition)
    (h : Inv m log) :
    Inv (mode_reset m)
      (log ++ [(mode_reset m).history.getD m.history_head default]) := by
  have key := Inv_log_transition m log h SystemMode.init TRIGGER_RESET 0 0
  show Inv (mode_reset m)
    (log ++ [(log_transition m m.mode SystemMode.init TRIGGER_RESET 0 0).history.getD
      m.history_head default])
  rw [key.2]
  exact Inv_override _ _ key.1 (by simp) SystemMode.init 0 false

theorem Inv_enter_test (m : ModeManager) (log : List ModeTransition)
    (h : Inv m log) :
    Inv (mode_enter_test m).2
      (log ++ if m.mode = SystemMode.emergency then []
              else [(mode_enter_test m).2.history.getD m.history_head default]) := by
  by_cases he : m.mode = SystemMode.emergency
  · rw [if_pos he, List.append_nil]
    have hm2 : (mode_enter_test m).2 = m := by
      unfold mode_enter_test
      rw [if_pos he]
    rw [hm2]
    exact h
  · rw [if_neg he]
    have hm2 : (mode_enter_test m).2 =
        { log_transition m m.mode SystemMode.test 0 0 0 with
          mode := SystemMode.test
          ticks_in_mode := 0 } := by
      unfold mode_enter_test
      rw [if_neg he]
    rw [hm2]
    have key := Inv_log_transition m log h SystemMode.test 0 0 0
    show Inv _
      (log ++ [(log_transition m m.mode SystemMode.test 0 0 0).history.getD
        m.history_head default])
    rw [key.2]
    exact Inv_override _ _ key.1 (by simp) SystemMode.test 0 _

theorem Inv_exit_test (m : ModeManager) (log : List ModeTransition)
    (h : Inv m log) :
    Inv (mode_exit_test m)
      (log ++ if m.mode = SystemMode.test then
                [(mode_exit_test m).history.getD m.history_head default]
              else []) := by
  by_cases ht : m.mode = SystemMode.test
  · rw [if_pos ht]
    have hm2 : mode_exit_test m =
        { log_transition m SystemMode.test SystemMode.init TRIGGER_RESET 0 0 with
          mode := SystemMode.init
          ticks_in_mode := 0 } := by
      unfold mode_exit_test
      rw [if_neg (not_not_intro ht)]
    rw [← ht] at hm2
    rw [hm2]
    have key := Inv_log_transition m log h SystemMode.init TRIGGER_RESET 0 0
    show Inv _
      (log ++ [(log_transition m m.mode SystemMode.init TRIGGER_RESET 0 0).history.getD
        m.history_head default])
    rw [key.2]
    exact Inv_override _ _ key.1 (by simp) SystemMode.init 0 _
  · rw [if_neg ht, List.append_nil]
    have hm2 : mode_exit_test m = m := by
      unfold mode_exit_test
      rw [if_pos ht]
    rw [hm2]
    exact h

theorem Inv_of_reached (m : ModeManager) (log : List ModeTransition)
    (h : ReachedWithLog m log) : Inv m log := by
  induction h with
  | fromInit cfg m0 hm0 =>
    cases cfg with
    | none =>
      simp only [mode_init, Prod.mk.injEq, Option.some.injEq] at hm0
      rw [← hm0.2]
      exact Inv_fresh _
    | some c =>
      simp only [mode_init] at hm0
      by_cases hv : c.min_dwell_startup < 1 ∨ c.min_dwell_degraded < 1
      · rw [if_pos hv] at hm0
        simp only [Prod.mk.injEq] at hm0
        exact absurd hm0.1 (by decide)
      · rw [if_neg hv] at hm0
        simp only [Prod.mk.injEq, Option.some.injEq] at hm0
        rw [← hm0.2]
        exact Inv_fresh c
  | fromUpdate m0 log0 input hr ih => exact Inv_update m0 log0 ih input
  | fromReset m0 log0 hr ih => exact Inv_reset m0 log0 ih
  | fromEnterTest m0 log0 hr ih => exact Inv_enter_test m0 log0 ih
  | fromExitTest m0 log0 hr ih => exact Inv_exit_test m0 log0 ih

theorem get_history_of_Inv (m : ModeManager) (log : List ModeTransition)
    (h : Inv m log) :
    mode_get_history m 16 =
      log.drop (log.length - min log.length 16) := by
  obtain ⟨⟨hlen, htot, hhead, hcount, hslots⟩, hfirst, hmode0⟩ := h
  have hlen2 : m.history.length = 16 := hlen
  have hhead2 : m.history_head = log.length % 16 := hhead
  have hcount2 : m.history_count = min log.length 16 := hcount
  have hslots2 : ∀ j, j < log.length → log.length ≤ j + 16 →
      m.history.getD (j % 16) default = log.getD j default := hslots
  have hminle : min log.length 16 ≤ log.length := Nat.min_le_left _ _
  have hmin16 : min log.length 16 ≤ 16 := Nat.min_le_right _ _
  have hsz : MODE_HISTORY_SIZE = 16 := rfl
  unfold mode_get_history
  rw [if_neg (by decide : ¬ (16 : Nat) = 0)]
  have hc : (if m.history_count < 16 then m.history_count else 16) =
      min log.length 16 := by
    rw [hcount2]
    split <;> omega
  rw [hc]
  simp only [hsz, hhead2, hcount2]
  apply List.ext_getElem
  · simp only [List.length_map, List.length_range, List.length_drop]
    omega
  · intro i h1 h2
    rw [List.getElem_map, List.getElem_range, List.getElem_drop]
    simp only [List.length_map, List.length_range] at h1
    have hjlt : log.length - min log.length 16 + i < log.length := by omega
    have hjge : log.length ≤ log.length - min log.length 16 + i + 16 := by omega
    have hidx : ((log.length % 16 + 16 - min log.length 16) % 16 + i) % 16 =
        (log.length - min log.length 16 + i) % 16 := by omega
    rw [hidx, hslots2 (log.length - min log.length 16 + i) hjlt hjge]
    exact List.getD_eq_getElem _ _ hjlt

/-- Claim C6: for every reachable manager, `mode_get_history m 16` returns
exactly `min total_transitions 16` records, equal to the suffix of the
chronological log of all appended records in oldest-to-newest order;
for a manager that has never exceeded 16 transitions it returns the whole
log and the earliest record departs from Init.  (`mode_get_history` takes
the manager read-only and returns only the list, so it cannot mutate.) -/
theorem get_history_audit (m : ModeManager) (log : List ModeTransition)
    (h : ReachedWithLog m log) :
    (mode_get_history m 16).length = min m.total_transitions 16 ∧
    mode_get_history m 16 = log.drop (log.length - min log.length 16) ∧
    (m.total_transitions ≤ 16 →
      mode_get_history m 16 = log ∧
      (0 < m.total_transitions →
        ((mode_get_history m 16).getD 0 default).from_mode = SystemMode.init)) := by
  have hinv := Inv_of_reached m log h
  have hg := get_history_of_Inv m log hinv
  obtain ⟨⟨hlen, htot, hhead, hcount, hslots⟩, hfirst, hmode0⟩ := hinv
  have hminle : min log.length 16 ≤ log.length := Nat.min_le_left _ _
  refine ⟨?_, hg, fun hle => ?_⟩
  · rw [hg, List.length_drop, htot]
    omega
  · have hlog : mode_get_history m 16 = log := by
      rw [hg]
      have hz : log.length - min log.length 16 = 0 := by
        rw [htot] at hle
        omega
      rw [hz, List.drop_zero]
    refine ⟨hlog, fun hpos => ?_⟩
    rw [hlog]
    exact hfirst (by rw [htot] at hpos; exact hpos)

/-- Witness for C6 after one real transition: init with dwell minimums 1,
one all-healthy update (Init to Startup). -/
theorem get_history_audit_witness :
    (mode_get_history (mode_update (freshManager cfg11) inAllHealthy).2.1 16).length =
      min (mode_update (freshManager cfg11) inAllHealthy).2.1.total_transitions 16 ∧
    mode_get_history (mode_update (freshManager cfg11) inAllHealthy).2.1 16 =
      ([] ++ updateAppended (freshManager cfg11) inAllHealthy).drop
        (([] ++ updateAppended (freshManager cfg11) inAllHealthy).length -
          min ([] ++ updateAppended (freshManager cfg11) inAllHealthy).length 16) ∧
    ((mode_update (freshManager cfg11) inAllHealthy).2.1.total_transitions ≤ 16 →
      mode_get_history (mode_update (freshManager cfg11) inAllHealthy).2.1 16 =
        ([] ++ updateAppended (freshManager cfg11) inAllHealthy) ∧
      (0 < (mode_update (freshManager cfg11) inAllHealthy).2.1.total_transitions →
        ((mode_get_history (mode_update (freshManager cfg11) inAllHealthy).2.1 16).getD 0
          default).from_mode = SystemMode.init)) :=
  get_history_audit _ _
    (ReachedWithLog.fromUpdate (freshManager cfg11) [] inAllHealthy
      (ReachedWithLog.fromInit (some cfg11) (freshManager cfg11) (by decide)))

/-! Claim C1: the code violates the stated Operational invariant. -/

/-- Claim C1 (refuting run): with config dwell minimums 1 and flags enabled,
three all-healthy cycles reach Operational; a fourth update whose report has
channel 0 Learning (not Healthy, no flags) still returns mode Operational —
the code keeps Operational although not all six channels of that same input
were Healthy, contradicting the claim (and INV-2 / CONTRACT-2 of mode.h). -/
theorem operational_with_learning_channel :
    (runUpdates (freshManager cfg11) [inAllHealthy, inAllHealthy, inAllHealthy]).mode =
      SystemMode.operational ∧
    ((mode_update (runUpdates (freshManager cfg11)
        [inAllHealthy, inAllHealthy, inAllHealthy]) inOneLearning).2.2.map
      fun r => r.mode) = some SystemMode.operational ∧
    ((mode_update (runUpdates (freshManager cfg11)
        [inAllHealthy, inAllHealthy, inAllHealthy]) inOneLearning).2.2.map
      fun r => r.transitioned) = some false ∧
    all_modules_healthy inOneLearning = false ∧
    cfg11.use_value_flags = true := by
  decide

/-! Claim C4: the dwell example of the spec is off by one cycle. -/

/-- Counterexample to C4 as stated: with dwell minimums 5 and 3, one
all-Learning cycle followed by 5 all-Healthy cycles leaves the manager in
Startup on that 6th cycle — not Operational as the claim asserts. -/
theorem dwell_sixth_cycle_still_startup :
    (runUpdates (freshManager cfg53)
      (inAllLearning :: List.replicate 5 inAllHealthy)).mode = SystemMode.startup ∧
    ¬ (runUpdates (freshManager cfg53)
      (inAllLearning :: List.replicate 5 inAllHealthy)).mode =
        SystemMode.operational := by
  decide

/-- Claim C4 (amended): with dwell minimums 5 and 3, the first all-Learning
cycle yields Startup with a transition; after 5 further all-Healthy cycles
the mode is still Startup (the dwell has only then reached 5), and the 6th
all-Healthy cycle — the 7th cycle overall — yields Operational with a
transition. -/
theorem dwell_scenario_amended :
    ((mode_update (freshManager cfg53) inAllLearning).2.2.map
      fun r => (r.mode, r.transitioned)) = some (SystemMode.startup, true) ∧
    (runUpdates (freshManager cfg53)
      (inAllLearning :: List.replicate 5 inAllHealthy)).mode = SystemMode.startup ∧
    (runUpdates (freshManager cfg53)
      (inAllLearning :: List.replicate 5 inAllHealthy)).ticks_in_mode = 5 ∧
    ((mode_update (runUpdates (freshManager cfg53)
        (inAllLearning :: List.replicate 5 inAllHealthy)) inAllHealthy).2.2.map
      fun r => (r.mode, r.transitioned)) = some (SystemMode.operational, true) := by
  decide

end ModeMgr
